import Mathlib

/-!
# Verification of the DFS game-flow engine (`src/app.py`)

Shallow embedding of the scoring and lineup-impact engine of the
`dfs-gameflow-dk` repository.  Numeric cell values are modelled as
rationals; pandas float cells that can be NaN or infinite (the `Salary`
column after a left merge and the derived `VALUE` column) are modelled
with the sum type `PFloat` below, which captures exactly the IEEE-754
special values that pandas division can produce here.
-/

set_option autoImplicit false

namespace DfsGameflow

/-- A pandas float cell: a finite number, a signed infinity (`inf true`
is `+∞`), or NaN.  Rationals stand in for the finite doubles; every
finite value the engine manipulates is exactly representable. -/
inductive PFloat where
  | num : ℚ → PFloat
  | inf : Bool → PFloat
  | nan : PFloat
  deriving DecidableEq, Repr

namespace PFloat

/-- IEEE-754 division as pandas performs it elementwise: division by a
finite nonzero value is exact, division of a nonzero finite value by
zero gives a signed infinity, `0/0` and anything involving NaN give
NaN. -/
def div : PFloat → PFloat → PFloat
  | nan, _ => nan
  | _, nan => nan
  | num a, num b =>
      if b ≠ 0 then num (a / b)
      else if a > 0 then inf true
      else if a < 0 then inf false
      else nan
  | num _, inf _ => num 0
  | inf s, num b => if b < 0 then inf (!s) else inf s
  | inf _, inf _ => nan

/-- Comparison of a float cell against a finite constant, as pandas
evaluates `series >= c`: NaN compares false, `+∞` compares true. -/
def geConst : PFloat → ℚ → Bool
  | num a, c => decide (a ≥ c)
  | inf s, _ => s
  | nan, _ => false

end PFloat

/-- A pandas row as `dk_points` sees it: a mapping from the seven
counting-stat column names to values.  An absent key is `none`;
`row["PTS"]` on such a row raises `KeyError`, which the embedding
renders as propagating `none`. -/
structure DkRow where
  pts : Option ℚ
  reb : Option ℚ
  ast : Option ℚ
  stl : Option ℚ
  blk : Option ℚ
  tov : Option ℚ
  tpm : Option ℚ
  deriving DecidableEq, Repr

/-- Source function `dk_points` (src/app.py:85-94).  Each `row[...]` subscript is a key
lookup that fails (`KeyError`) when the column is absent, so the result
is `none` unless all seven stats are present. -/
def dk_points (row : DkRow) : Option ℚ := do
  let pts ← row.pts
  let reb ← row.reb
  let ast ← row.ast
  let stl ← row.stl
  let blk ← row.blk
  let tov ← row.tov
  let tpm ← row.tpm
  return pts + reb * (5/4) + ast * (3/2) + stl * 2 + blk * 2 + tpm * (1/2) - tov * (1/2)

/-- A row of the boxscore table built by `load_boxscore`
(src/app.py:48-72): the seven counting stats and the four quarter
columns are always populated. -/
structure BoxRow where
  player : String
  pts : ℚ
  reb : ℚ
  ast : ℚ
  stl : ℚ
  blk : ℚ
  tov : ℚ
  tpm : ℚ
  q1 : ℚ
  q2 : ℚ
  q3 : ℚ
  q4 : ℚ
  deriving DecidableEq, Repr

/-- View of a fully populated boxscore row as the keyed row that
`stats.apply(dk_points, axis=1)` passes to `dk_points`. -/
def BoxRow.toDkRow (r : BoxRow) : DkRow :=
  ⟨some r.pts, some r.reb, some r.ast, some r.stl, some r.blk, some r.tov, some r.tpm⟩

/-- The scalar `dk_points` computes on a fully populated row; used for
the `DK_POINTS` column (src/app.py:101). -/
def dkScore (r : BoxRow) : ℚ :=
  r.pts + r.reb * (5/4) + r.ast * (3/2) + r.stl * 2 + r.blk * 2 + r.tpm * (1/2) - r.tov * (1/2)

/-- A row of the salary table (`salaries[["PLAYER", "Salary"]]`). -/
structure SalaryRow where
  player : String
  salary : ℚ
  deriving DecidableEq, Repr

/-- Embedding of `stats.merge(salaries[["PLAYER","Salary"]], on="PLAYER",
how="left")` (src/app.py:103-107): every left row is kept, paired with each matching
salary; a row with no match gets a NaN (`none`) salary. -/
def mergeLeft (stats : List BoxRow) (sal : List SalaryRow) : List (BoxRow × Option ℚ) :=
  stats.flatMap fun r =>
    match (sal.filter fun s => s.player = r.player).map (fun s => (r, some s.salary)) with
    | [] => [(r, none)]
    | l => l

/-- A row of the scored-player table `df` after src/app.py:101-109:
the boxscore stats plus `DK_POINTS`, `Salary` (NaN when the left merge
found no match) and `VALUE`. -/
structure ScoredRow where
  row : BoxRow
  dk : ℚ
  salary : Option ℚ
  value : PFloat
  deriving DecidableEq, Repr

/-- Float view of the `Salary` cell (NaN when missing). -/
def salaryFloat : Option ℚ → PFloat
  | none => PFloat.nan
  | some s => PFloat.num s

/-- Embedding of `df["VALUE"] = df["DK_POINTS"] / (df["Salary"] / 1000)`
(src/app.py:109). -/
def valueOf (dk : ℚ) (salary : Option ℚ) : PFloat :=
  PFloat.div (PFloat.num dk) (PFloat.div (salaryFloat salary) (PFloat.num 1000))

/-- The scored-player table `df` (src/app.py:101-109): boxscore rows
left-merged with salaries, with the `DK_POINTS` and `VALUE` columns
computed. -/
def scoredTable (stats : List BoxRow) (sal : List SalaryRow) : List ScoredRow :=
  (mergeLeft stats sal).map fun rs =>
    { row := rs.1, dk := dkScore rs.1, salary := rs.2, value := valueOf (dkScore rs.1) rs.2 }

/-- Embedding of `df["DK_POINTS"].mean()`: pandas mean of the (never-NaN)
`DK_POINTS` column. -/
def meanDk (df : List ScoredRow) : ℚ :=
  (df.map fun r => r.dk).sum / df.length

/-- The late-swap alert table (src/app.py:140-143):
`df[(df["VALUE"] >= 5) & (df["DK_POINTS"] < df["DK_POINTS"].mean())]`. -/
def lateAlerts (df : List ScoredRow) : List ScoredRow :=
  df.filter fun r => r.value.geConst 5 && decide (r.dk < meanDk df)

/-! ## Synthetic-lineup mode (src/app.py:156-247)

The source seeds numpy's global generator (`np.random.seed(42)`,
src/app.py:172) and then draws 50 lineups of 8 players each with
`player_pool.sample(LINEUP_SIZE, replace=False)`.  The generator is
embedded as an explicit deterministic state machine threaded through
the draws; `sample` is a without-replacement selection driven by that
state, matching the shape (size, distinctness, pool membership,
state-threading) of the pandas call. -/

/-- State of the global pseudo-random generator. -/
abbrev RngState := ℕ

/-- Embedding of `np.random.seed(n)`: resets the global generator to a state fully
determined by `n`, discarding whatever state it previously held. -/
def npRandomSeed (n : ℕ) (_prev : RngState) : RngState := n

/-- One step of the generator: a 64-bit linear-congruential update,
returning the drawn word and the successor state. -/
def rngNext (s : RngState) : ℕ × RngState :=
  let s' := (6364136223846793005 * s + 1442695040888963407) % 2 ^ 64
  (s' / 2 ^ 32, s')

/-- Embedding of `pool.sample(k, replace=False)` driven by the explicit generator
state: repeatedly draw an index into the remaining pool, take that
element out, and recurse. -/
def sampleWR {α : Type} (k : ℕ) (pool : List α) (s : RngState) : List α × RngState :=
  match k with
  | 0 => ([], s)
  | k + 1 =>
      if h : pool.length = 0 then ([], s)
      else
        let i : Fin pool.length :=
          ⟨(rngNext s).1 % pool.length, Nat.mod_lt _ (Nat.pos_of_ne_zero h)⟩
        (pool.get i :: (sampleWR k (pool.eraseIdx i) (rngNext s).2).1,
          (sampleWR k (pool.eraseIdx i) (rngNext s).2).2)

/-- Pool construction `player_pool = df.dropna(subset=["Salary"])` followed
by `player_pool = player_pool[player_pool["Salary"] > 3000]`
(src/app.py:174-175). -/
def playerPool (df : List ScoredRow) : List ScoredRow :=
  df.filter fun r =>
    match r.salary with
    | some s => decide (s > 3000)
    | none => false

/-- Constant `NUM_LINEUPS = 50` (src/app.py:177). -/
def NUM_LINEUPS : ℕ := 50

/-- Constant `LINEUP_SIZE = 8` (src/app.py:178). -/
def LINEUP_SIZE : ℕ := 8

/-- The `for i in range(NUM_LINEUPS)` loop body's sampling
(src/app.py:183-184): draw `n` lineups in sequence, threading the
global generator state. -/
def drawLineups (n : ℕ) (pool : List ScoredRow) (s : RngState) :
    List (List ScoredRow) × RngState :=
  match n with
  | 0 => ([], s)
  | n + 1 =>
      ((sampleWR LINEUP_SIZE pool s).1 ::
          (drawLineups n pool (sampleWR LINEUP_SIZE pool s).2).1,
        (drawLineups n pool (sampleWR LINEUP_SIZE pool s).2).2)

/-- The lineups the synthetic mode builds from the scored-player table
(src/app.py:172-184): seed the generator with 42, filter the pool, and
draw `NUM_LINEUPS` lineups when the pool holds at least `LINEUP_SIZE`
players, none otherwise (src/app.py:182, 246-247). -/
def syntheticLineups (df : List ScoredRow) (s : RngState) : List (List ScoredRow) :=
  let s0 := npRandomSeed 42 s
  let pool := playerPool df
  if pool.length ≥ LINEUP_SIZE then (drawLineups NUM_LINEUPS pool s0).1 else []

/-- One row of the lineup-impact table, holding the quantities the loop
body computes (src/app.py:186-207) before display rounding. -/
structure LineupMetrics where
  lineupNo : ℕ
  dkPoints : ℚ
  salaryTotal : PFloat
  val : PFloat
  earlyDk : ℚ
  lateDk : ℚ
  impactScore : ℚ
  deriving DecidableEq, Repr

/-- Sum `lineup["DK_POINTS"].sum()` (src/app.py:186). -/
def lineupDk (lu : List ScoredRow) : ℚ := (lu.map fun r => r.dk).sum

/-- Sum `lineup["Salary"].sum()` (src/app.py:187); pandas sums a column
with NaN by skipping the NaN cells, so missing salaries contribute 0.
Pool rows always have a present salary, but the sum is defined for any
row list. -/
def lineupSalary (lu : List ScoredRow) : ℚ := (lu.map fun r => (r.salary).getD 0).sum

/-- Per-quarter sums `lineup["Q1"].sum()` … (src/app.py:189-192). -/
def lineupQ1 (lu : List ScoredRow) : ℚ := (lu.map fun r => r.row.q1).sum

def lineupQ2 (lu : List ScoredRow) : ℚ := (lu.map fun r => r.row.q2).sum

def lineupQ3 (lu : List ScoredRow) : ℚ := (lu.map fun r => r.row.q3).sum

def lineupQ4 (lu : List ScoredRow) : ℚ := (lu.map fun r => r.row.q4).sum

/-- Quantity `late_push = q3 + q4` (src/app.py:194). -/
def latePush (lu : List ScoredRow) : ℚ := lineupQ3 lu + lineupQ4 lu

/-- Quantity `early_push = q1 + q2` (src/app.py:195). -/
def earlyPush (lu : List ScoredRow) : ℚ := lineupQ1 lu + lineupQ2 lu

/-- Quantity `impact_score = (late_push - early_push) / max(lineup_dk, 1)`
(src/app.py:197). -/
def impact_score (lu : List ScoredRow) : ℚ :=
  (latePush lu - earlyPush lu) / max (lineupDk lu) 1

/-- The record appended for lineup `i` (src/app.py:199-207); the
source rounds the displayed floats, which does not affect any property
verified here, so the raw quantities are kept. -/
def mkMetrics (i : ℕ) (lu : List ScoredRow) : LineupMetrics :=
  { lineupNo := i + 1
    dkPoints := lineupDk lu
    salaryTotal := PFloat.num (lineupSalary lu)
    val := PFloat.div (PFloat.num (lineupDk lu))
        (PFloat.div (PFloat.num (lineupSalary lu)) (PFloat.num 1000))
    earlyDk := earlyPush lu
    lateDk := latePush lu
    impactScore := impact_score lu }

/-- The `lineups` list of records built by the loop
(src/app.py:180-209). -/
def syntheticMetrics (df : List ScoredRow) (s : RngState) : List LineupMetrics :=
  (syntheticLineups df s).enum.map fun p => mkMetrics p.1 p.2

/-- Modelled from the spec: the repository source has no
`minutes_remaining` computation (the swap-urgency lineup-aggregation
stage of spec §4.2 appears nowhere in `src/app.py`); the definition
follows the spec's formula `minutes_remaining = max(0, (4 -
current_quarter) * 12)` verbatim. -/
def minutes_remaining (current_quarter : ℤ) : ℤ :=
  max 0 ((4 - current_quarter) * 12)

/-! ## Concrete tables used to instantiate theorems -/

/-- Boxscore row of a cheap player: 5 points spread over the game. -/
def exBoxA : BoxRow := ⟨"A", 5, 0, 0, 0, 0, 0, 0, 1, 1, 1, 2⟩

/-- Boxscore row of a pricier player: 15 points, all early. -/
def exBoxB : BoxRow := ⟨"B", 15, 0, 0, 0, 0, 0, 0, 0, 0, 0, 0⟩

/-- A two-row salary table matching `exBoxA` and `exBoxB`. -/
def exSalaries : List SalaryRow := [⟨"A", 500⟩, ⟨"B", 1000⟩]

/-- The scored-player table produced from the two example rows. -/
def exBatch : List ScoredRow := scoredTable [exBoxA, exBoxB] exSalaries

/-- A boxscore row used to exercise the left merge against an empty
salary table. -/
def exSolo : BoxRow := ⟨"Z", 10, 4, 2, 1, 1, 2, 1, 3, 3, 2, 2⟩

/-- A scored row with a salary above the pool floor, parametrised by
player name. -/
def exPoolRow (name : String) : ScoredRow :=
  { row := ⟨name, 0, 0, 0, 0, 0, 0, 0, 0, 0, 0, 0⟩
    dk := 0
    salary := some 4000
    value := PFloat.num 0 }

/-- A scored-player table with eight pool-eligible players. -/
def exPoolDf : List ScoredRow :=
  [exPoolRow "a", exPoolRow "b", exPoolRow "c", exPoolRow "d",
    exPoolRow "e", exPoolRow "f", exPoolRow "g", exPoolRow "h"]

/-! ## Theorems -/

/-- The example scored table, evaluated: player A scores 5 fantasy
points at value 10 per $1000, player B scores 15 at value 15. -/
theorem exBatch_eq : exBatch =
    [{ row := exBoxA, dk := 5, salary := some 500, value := PFloat.num 10 },
      { row := exBoxB, dk := 15, salary := some 1000, value := PFloat.num 15 }] := by
  simp +decide [exBatch, scoredTable, mergeLeft, exBoxA, exBoxB, exSalaries, dkScore,
    valueOf, salaryFloat, PFloat.div, List.filter_cons, List.filter_nil,
    List.flatMap_cons, List.flatMap_nil]
  norm_num

/-- C1: for every player stat row with the seven counting stats present,
`dk_points` returns `points + rebounds*1.25 + assists*1.5 + steals*2 +
blocks*2 + three_pointers_made*0.5 - turnovers*0.5`; the exact value is
returned, so a negative result is preserved, never clamped. -/
theorem dk_points_formula (row : DkRow) (p r a s b t m : ℚ)
    (hp : row.pts = some p) (hr : row.reb = some r) (ha : row.ast = some a)
    (hs : row.stl = some s) (hb : row.blk = some b) (ht : row.tov = some t)
    (hm : row.tpm = some m) :
    dk_points row = some (p + r * 1.25 + a * 1.5 + s * 2 + b * 2 + m * 0.5 - t * 0.5) := by
  simp only [dk_points, hp, hr, ha, hs, hb, ht, hm, Option.bind_eq_bind, Option.some_bind]
  norm_num

/-- Witness for C1: the row `{points:10, rebounds:4, assists:2, steals:1,
blocks:1, turnovers:2, three_pointers_made:1}` scores exactly 21.5. -/
theorem dk_points_formula_witness :
    dk_points ⟨some 10, some 4, some 2, some 1, some 1, some 2, some 1⟩ = some 21.5 :=
  (dk_points_formula ⟨some 10, some 4, some 2, some 1, some 1, some 2, some 1⟩
    10 4 2 1 1 2 1 rfl rfl rfl rfl rfl rfl rfl).trans (by norm_num)

/-- Counterexample to C2 as stated: on a row with all seven fields
absent, `dk_points` produces no value at all (`row["PTS"]` raises
`KeyError`), rather than the claimed fantasy-point total of 0. -/
theorem dk_points_all_absent_errors :
    dk_points ⟨none, none, none, none, none, none, none⟩ = none ∧
    dk_points ⟨none, none, none, none, none, none, none⟩ ≠ some 0 := by
  exact ⟨rfl, by decide⟩

/-- C2 amended: scoring succeeds exactly when all seven counting-stat
fields are present in the row; an absent field is not defaulted to 0 but
makes `dk_points` fail with a key lookup error. -/
theorem dk_points_requires_all_fields (row : DkRow) :
    (dk_points row).isSome = true ↔
      (row.pts.isSome = true ∧ row.reb.isSome = true ∧ row.ast.isSome = true ∧
        row.stl.isSome = true ∧ row.blk.isSome = true ∧ row.tov.isSome = true ∧
        row.tpm.isSome = true) := by
  rcases row with ⟨p, r, a, s, b, t, m⟩
  cases p <;> cases r <;> cases a <;> cases s <;> cases b <;> cases t <;> cases m <;>
    simp only [dk_points, Option.some_bind, Option.none_bind, Option.bind_eq_bind,
      Option.isSome_none, Option.isSome_some] <;> simp

/-- Counterexample to C3 as stated: a scored player with fantasy points
10 and salary 0 gets the value `+∞` — an infinity propagated into the
numeric `VALUE` column, not a non-numeric undefined sentinel. -/
theorem value_zero_salary_is_infinite :
    valueOf 10 (some 0) = PFloat.inf true ∧ PFloat.inf true ≠ PFloat.nan := by
  constructor
  · norm_num [valueOf, salaryFloat, PFloat.div]
  · simp

/-- C3 amended: a missing or null salary yields the NaN sentinel for
`VALUE`, but a zero salary yields a signed infinity whenever the
player's fantasy points are nonzero (NaN only at exactly zero fantasy
points): an infinity, not an undefined marker, enters the column. -/
theorem value_missing_vs_zero_salary (dk : ℚ) :
    valueOf dk none = PFloat.nan ∧
    valueOf dk (some 0) =
      (if dk > 0 then PFloat.inf true
        else if dk < 0 then PFloat.inf false
        else PFloat.nan) := by
  refine ⟨rfl, ?_⟩
  show PFloat.div (PFloat.num dk) (PFloat.div (PFloat.num 0) (PFloat.num 1000)) = _
  norm_num [PFloat.div]

/-- C8 (modelled from the spec): `minutes_remaining` is
`max(0, (4 - current_quarter) * 12)`, giving 36 at quarter 1, 0 at
quarter 4, clamped to 0 at quarter 5, and never negative. -/
theorem minutes_remaining_spec :
    minutes_remaining 1 = 36 ∧ minutes_remaining 4 = 0 ∧ minutes_remaining 5 = 0 ∧
    ∀ q : ℤ, 0 ≤ minutes_remaining q ∧ minutes_remaining q = max 0 ((4 - q) * 12) :=
  ⟨by decide, by decide, by decide, fun q => ⟨le_max_left 0 _, rfl⟩⟩

/-- Characterisation of membership in the late-swap alert table
(src/app.py:140-143), shared by the alert theorems below. -/
theorem mem_lateAlerts_iff (df : List ScoredRow) (r : ScoredRow) :
    r ∈ lateAlerts df ↔ r ∈ df ∧ r.value.geConst 5 = true ∧ r.dk < meanDk df := by
  simp [lateAlerts, List.mem_filter, and_assoc]

/-- Counterexample to C4 as stated: the late-swap flagging of the code
operates on a batch of just two scored rows — fewer than 4 — and flags
one of them, so the claimed "fewer than 4 lineups → nothing flagged"
rule does not hold; nor does any 75th-percentile rule exist in the
code. -/
theorem late_alert_flags_small_batch :
    exBatch.length = 2 ∧ (lateAlerts exBatch).length = 1 := by
  rw [exBatch_eq]
  norm_num [lateAlerts, meanDk, PFloat.geConst, List.filter_cons, List.filter_nil,
    exBoxA, exBoxB]

/-- C4 amended: the alert in the code is per scored player row, not per
lineup, and uses no percentile: a row is flagged iff its value is at
least 5 and its fantasy points are strictly below the batch mean; there
is no minimum batch size (a batch of two can flag a row), though a
one-row batch never flags since a row is never strictly below its own
mean. -/
theorem late_alert_rule (df : List ScoredRow) (r : ScoredRow) :
    (r ∈ lateAlerts df ↔ r ∈ df ∧ r.value.geConst 5 = true ∧ r.dk < meanDk df) ∧
    lateAlerts [r] = [] := by
  refine ⟨mem_lateAlerts_iff df r, ?_⟩
  simp [lateAlerts, meanDk]

/-- C5: every record of the synthetic lineup-impact table carries
`impact_score = ((q3+q4) - (q1+q2)) / max(total_points, 1)` where
`q1..q4` are the sums of the lineup members' per-quarter points and
`total_points` is the sum of their fantasy points, together with
`early = q1+q2` and `late = q3+q4`. -/
theorem synthetic_metrics_formula (df : List ScoredRow) (s : RngState) :
    syntheticMetrics df s = (syntheticLineups df s).enum.map (fun p =>
      ({ lineupNo := p.1 + 1
         dkPoints := (p.2.map fun r => r.dk).sum
         salaryTotal := PFloat.num ((p.2.map fun r => (r.salary).getD 0).sum)
         val := PFloat.div (PFloat.num ((p.2.map fun r => r.dk).sum))
             (PFloat.div (PFloat.num ((p.2.map fun r => (r.salary).getD 0).sum))
               (PFloat.num 1000))
         earlyDk := (p.2.map fun r => r.row.q1).sum + (p.2.map fun r => r.row.q2).sum
         lateDk := (p.2.map fun r => r.row.q3).sum + (p.2.map fun r => r.row.q4).sum
         impactScore := (((p.2.map fun r => r.row.q3).sum + (p.2.map fun r => r.row.q4).sum) -
             ((p.2.map fun r => r.row.q1).sum + (p.2.map fun r => r.row.q2).sum)) /
           max ((p.2.map fun r => r.dk).sum) 1 } : LineupMetrics)) := rfl

/-- C6: the synthetic-lineup generator reseeds the global generator
with the fixed constant 42 before sampling, so its output — and hence
the whole metrics table — is the same whatever generator state the
session was in: repeated runs on the same player pool coincide. -/
theorem synthetic_sampling_reproducible (df : List ScoredRow) (s₁ s₂ : RngState) :
    syntheticLineups df s₁ = syntheticLineups df s₂ ∧
    syntheticMetrics df s₁ = syntheticMetrics df s₂ :=
  ⟨rfl, rfl⟩

/-- C10: a player row appears in the late-swap alert table iff its
value is at least 5 and its fantasy points are strictly below the mean
fantasy points over all rows of the scored-player table; the alert is
computed from that table alone. -/
theorem late_alert_membership (df : List ScoredRow) (r : ScoredRow) :
    r ∈ lateAlerts df ↔
      r ∈ df ∧ r.value.geConst 5 = true ∧
        r.dk < ((df.map fun x => x.dk).sum / (df.length : ℚ)) := by
  simpa [meanDk] using mem_lateAlerts_iff df r

/-- C7: every boxscore row survives the left merge into the
scored-player table with its fantasy points computed; a row with no
matching salary entry is carried through with an undefined (NaN) salary
and a NaN value, never dropped. -/
theorem boxscore_rows_survive_merge (stats : List BoxRow) (sal : List SalaryRow)
    (r : BoxRow) (hr : r ∈ stats) :
    ∃ e ∈ scoredTable stats sal, e.row = r ∧ e.dk = dkScore r ∧
      ((∀ s ∈ sal, s.player ≠ r.player) → e.salary = none ∧ e.value = PFloat.nan) := by
  rcases h : sal.filter (fun s => decide (s.player = r.player)) with _ | ⟨s₀, rest⟩
  · have hpair : (r, (none : Option ℚ)) ∈ mergeLeft stats sal := by
      apply List.mem_flatMap.mpr
      refine ⟨r, hr, ?_⟩
      simp only [h, List.map_nil]
      exact List.mem_singleton.mpr rfl
    exact ⟨_, List.mem_map_of_mem _ hpair, rfl, rfl, fun _ => ⟨rfl, rfl⟩⟩
  · have hs₀ : s₀ ∈ sal ∧ s₀.player = r.player := by
      have hmem : s₀ ∈ sal.filter (fun s => decide (s.player = r.player)) := by
        rw [h]; exact List.mem_cons_self s₀ rest
      have h2 := List.mem_filter.mp hmem
      exact ⟨h2.1, by simpa using h2.2⟩
    have hpair : (r, some s₀.salary) ∈ mergeLeft stats sal := by
      apply List.mem_flatMap.mpr
      refine ⟨r, hr, ?_⟩
      simp only [h, List.map_cons]
      exact List.mem_cons_self _ _
    exact ⟨_, List.mem_map_of_mem _ hpair, rfl, rfl,
      fun hnone => absurd hs₀.2 (hnone s₀ hs₀.1)⟩

/-- Witness for C7: the row `exSolo` merged against an empty salary
table survives with NaN salary and NaN value. -/
theorem boxscore_rows_survive_merge_witness :
    ∃ e ∈ scoredTable [exSolo] [], e.row = exSolo ∧ e.dk = dkScore exSolo ∧
      ((∀ s ∈ ([] : List SalaryRow), s.player ≠ exSolo.player) →
        e.salary = none ∧ e.value = PFloat.nan) :=
  boxscore_rows_survive_merge [exSolo] [] exSolo (List.mem_singleton.mpr rfl)

/-- Sampling without replacement only rearranges and drops pool
entries: the drawn list is a sub-permutation of the pool, so no pool
entry is used twice. -/
theorem sampleWR_subperm {α : Type} [DecidableEq α] :
    ∀ (k : ℕ) (pool : List α) (s : RngState), ((sampleWR k pool s).1).Subperm pool := by
  intro k
  induction k with
  | zero => intro pool s; exact List.nil_subperm
  | succ k ih =>
    intro pool s
    by_cases h : pool.length = 0
    · simp only [sampleWR, dif_pos h]; exact List.nil_subperm
    · simp only [sampleWR, dif_neg h]
      set i : Fin pool.length :=
        ⟨(rngNext s).1 % pool.length, Nat.mod_lt _ (Nat.pos_of_ne_zero h)⟩ with hi
      have htail := ih (pool.eraseIdx (i : ℕ)) (rngNext s).2
      have hperm : (pool.erase (pool.get i)).Perm (pool.eraseIdx (i : ℕ)) := by
        simpa [List.get_eq_getElem] using List.erase_getElem i.isLt
      have h1 := (hperm.subperm_left).mpr htail
      have h2 := (List.subperm_cons (pool.get i)).mpr h1
      have h3 : ((pool.get i) :: pool.erase (pool.get i)).Perm pool :=
        (List.perm_cons_erase (List.get_mem pool i i.isLt)).symm
      exact h3.subperm_left.mp h2

/-- A sample of `k` from a pool of at least `k` entries has exactly `k`
entries. -/
theorem sampleWR_length {α : Type} :
    ∀ (k : ℕ) (pool : List α) (s : RngState), k ≤ pool.length →
      ((sampleWR k pool s).1).length = k := by
  intro k
  induction k with
  | zero => intro pool s _; rfl
  | succ k ih =>
    intro pool s hk
    have h : pool.length ≠ 0 := by omega
    simp only [sampleWR, dif_neg h, List.length_cons]
    set i : Fin pool.length :=
      ⟨(rngNext s).1 % pool.length, Nat.mod_lt _ (Nat.pos_of_ne_zero h)⟩ with hi
    have hlen : (pool.eraseIdx (i : ℕ)).length + 1 = pool.length :=
      List.length_eraseIdx_add_one i.isLt
    rw [ih (pool.eraseIdx (i : ℕ)) (rngNext s).2 (by omega)]

/-- The lineup loop draws one lineup per iteration. -/
theorem drawLineups_length :
    ∀ (n : ℕ) (pool : List ScoredRow) (s : RngState),
      ((drawLineups n pool s).1).length = n := by
  intro n
  induction n with
  | zero => intro pool s; rfl
  | succ n ih => intro pool s; simp only [drawLineups, List.length_cons, ih]

/-- Every lineup the loop produces is a sample of `LINEUP_SIZE` from
the pool at some intermediate generator state. -/
theorem drawLineups_mem :
    ∀ (n : ℕ) (pool : List ScoredRow) (s : RngState) (lu : List ScoredRow),
      lu ∈ (drawLineups n pool s).1 → ∃ s', lu = (sampleWR LINEUP_SIZE pool s').1 := by
  intro n
  induction n with
  | zero => intro pool s lu hlu; cases hlu
  | succ n ih =>
    intro pool s lu hlu
    rcases List.mem_cons.mp hlu with h | h
    · exact ⟨s, h⟩
    · exact ih pool _ lu h

/-- Membership in the player pool: a scored row with a present salary
strictly above 3000. -/
theorem mem_playerPool (df : List ScoredRow) (r : ScoredRow) :
    r ∈ playerPool df ↔ r ∈ df ∧ ∃ v, r.salary = some v ∧ v > 3000 := by
  rw [playerPool, List.mem_filter]
  rcases hs : r.salary with _ | v <;> simp [hs]

/-- C9: when the pool of players with a present salary above 3000 holds
at least 8 players, the synthetic mode produces exactly 50 lineups,
each of exactly 8 entries drawn without repetition from that pool (so
with 8 distinct players whenever the pool rows are distinct), every
member being a row of the scored table with a present salary above
3000; with fewer than 8 pool players no lineup is produced. -/
theorem synthetic_lineup_shape (df : List ScoredRow) (s : RngState) :
    ((playerPool df).length ≥ LINEUP_SIZE →
      (syntheticLineups df s).length = NUM_LINEUPS ∧
      ∀ lu ∈ syntheticLineups df s,
        lu.length = LINEUP_SIZE ∧
        lu.Subperm (playerPool df) ∧
        ((playerPool df).Nodup → lu.Nodup) ∧
        ∀ x ∈ lu, x ∈ df ∧ ∃ v, x.salary = some v ∧ v > 3000) ∧
    ((playerPool df).length < LINEUP_SIZE → syntheticLineups df s = []) := by
  constructor
  · intro hge
    simp only [syntheticLineups, if_pos hge]
    refine ⟨drawLineups_length NUM_LINEUPS (playerPool df) _, ?_⟩
    intro lu hlu
    obtain ⟨s', hs'⟩ := drawLineups_mem NUM_LINEUPS (playerPool df) _ lu hlu
    subst hs'
    have hsub := sampleWR_subperm LINEUP_SIZE (playerPool df) s'
    refine ⟨sampleWR_length LINEUP_SIZE (playerPool df) s' hge, hsub, ?_, ?_⟩
    · intro hnd
      obtain ⟨l, hp, hsl⟩ := hsub
      exact (hp.nodup_iff).mp (hnd.sublist hsl)
    · intro x hx
      exact (mem_playerPool df x).mp (hsub.subset hx)
  · intro hlt
    simp only [syntheticLineups]
    rw [if_neg (by omega)]

/-- Witness for C9: the eight-player example table yields exactly
`NUM_LINEUPS` lineups, and the empty table yields none. -/
theorem synthetic_lineup_shape_witness :
    (syntheticLineups exPoolDf 0).length = NUM_LINEUPS ∧ syntheticLineups [] 0 = [] :=
  ⟨((synthetic_lineup_shape exPoolDf 0).1 (by decide)).1,
    (synthetic_lineup_shape [] 0).2 (by decide)⟩

end DfsGameflow
